import Mathlib

/-!
Verification of the USFM converter core (`src/components/USFMConverter.tsx`,
`src/types.ts`): a shallow embedding of `convertToUSFM`, the single operation
that builds a two-message prompt, calls a completion service, classifies the
HTTP outcome, and runs the structural USFM validator (required headers and
marker-pair balance) over the returned text.

The completion service (`fetch` + `response.json()`) is modelled as an
explicit argument `svc : List OpenRouterMessage → FetchResult`: either an
exception (a rejected fetch or JSON parse, carrying the `Error` message when
one exists) or an HTTP status together with the parsed body.  The embedded
`convertToUSFM` returns the `ConversionResult` paired with the number of
service calls it performed, so that "no network call" claims are statable.
Every `throw` in the TypeScript `try` block is caught by the single `catch`
and becomes `{success: false, error: message}`; the embedding therefore
returns that failure value directly at each throw site.
-/

namespace USFM

/-! ### JavaScript string primitives used by the source

`String.prototype.trim` removes the ECMAScript `WhiteSpace` and
`LineTerminator` code points; `String.prototype.includes` is a plain
substring test. -/

/-- The code points removed by JavaScript `String.prototype.trim`:
TAB, LF, VT, FF, CR, SP, NBSP, Ogham space, the U+2000..U+200A spaces,
LS, PS, NNBSP, MMSP, ideographic space, and ZWNBSP. -/
def jsWhitespaceChars : List Char :=
  [Char.ofNat 0x09, Char.ofNat 0x0A, Char.ofNat 0x0B, Char.ofNat 0x0C,
   Char.ofNat 0x0D, Char.ofNat 0x20, Char.ofNat 0xA0, Char.ofNat 0x1680,
   Char.ofNat 0x2000, Char.ofNat 0x2001, Char.ofNat 0x2002, Char.ofNat 0x2003,
   Char.ofNat 0x2004, Char.ofNat 0x2005, Char.ofNat 0x2006, Char.ofNat 0x2007,
   Char.ofNat 0x2008, Char.ofNat 0x2009, Char.ofNat 0x200A, Char.ofNat 0x2028,
   Char.ofNat 0x2029, Char.ofNat 0x202F, Char.ofNat 0x205F, Char.ofNat 0x3000,
   Char.ofNat 0xFEFF]

def isJsWhitespace (c : Char) : Bool :=
  jsWhitespaceChars.contains c

/-- JavaScript `text.trim()`: strip leading and trailing whitespace. -/
def jsTrim (s : String) : String :=
  ⟨((s.data.dropWhile isJsWhitespace).reverse.dropWhile isJsWhitespace).reverse⟩

/-- `needle` is a prefix of `haystack` (character lists). -/
def isPrefixList : List Char → List Char → Bool
  | [], _ => true
  | _ :: _, [] => false
  | a :: as, b :: bs => a = b && isPrefixList as bs

def includesAux (needle : List Char) : List Char → Bool
  | [] => isPrefixList needle []
  | c :: rest => isPrefixList needle (c :: rest) || includesAux needle rest

/-- JavaScript `s.includes(needle)`: substring occurrence. -/
def jsIncludes (s needle : String) : Bool :=
  includesAux needle.data s.data

/-! ### JavaScript RegExp global-match counting

The source counts marker tokens with
`(convertedText.match(new RegExp(pat, 'g')) || []).length` where `pat` is one
of the JavaScript strings `\f`, `\f*`, `\x`, `\x*`, `\esb`, `\esbe`.  As
RegExp patterns (no `u` flag, Annex B semantics) these denote: `\f` the form
feed U+000C, `\x` without hex digits the literal `x`, `\e` the identity
escape `e`; a trailing `*` is greedy repetition of the preceding atom.  The
model below parses exactly this fragment (escape, single character, optional
postfix star) and replays the `RegExpExec`/`String.prototype.match` loop:
search forward for the first match, count it, and resume at the match end —
advancing by one position after an empty match — while the resume position
is at most the string length. -/

inductive RTok where
  | lit (c : Char)
  | star (c : Char)
deriving DecidableEq

/-- Decode a RegExp character escape `\c` (Annex B: an unrecognized escape is
an identity escape, e.g. `\x` without hex digits and `\e`). -/
def escDecode (c : Char) : Char :=
  match c with
  | 'f' => Char.ofNat 0x0C
  | 'n' => Char.ofNat 0x0A
  | 'r' => Char.ofNat 0x0D
  | 't' => Char.ofNat 0x09
  | 'v' => Char.ofNat 0x0B
  | '0' => Char.ofNat 0x00
  | _ => c

def parseRegex : List Char → List RTok
  | [] => []
  | '\\' :: c :: '*' :: rest => RTok.star (escDecode c) :: parseRegex rest
  | '\\' :: c :: rest => RTok.lit (escDecode c) :: parseRegex rest
  | c :: '*' :: rest => RTok.star c :: parseRegex rest
  | c :: rest => RTok.lit c :: parseRegex rest

/-- Match the token sequence at the head of `cs`; return the number of
characters consumed (stars are greedy; no token here needs backtracking). -/
def matchAt : List RTok → List Char → Option Nat
  | [], _ => some 0
  | RTok.lit _ :: _, [] => none
  | RTok.lit c :: ts, d :: ds =>
    if d = c then (matchAt ts ds).map (· + 1) else none
  | RTok.star c :: ts, ds =>
    let k := (ds.takeWhile (fun d => d = c)).length
    (matchAt ts (ds.drop k)).map (· + k)

/-- First match of `ts` in `cs`: its offset and its length. -/
def findFirst (ts : List RTok) : List Char → Option (Nat × Nat)
  | [] =>
    match matchAt ts [] with
    | some k => some (0, k)
    | none => none
  | c :: rest =>
    match matchAt ts (c :: rest) with
    | some k => some (0, k)
    | none => (findFirst ts rest).map (fun p => (p.1 + 1, p.2))

/-- The global-match loop: count a found match, then resume at its end
(one further on an empty match) while the resume position still lies within
the string.  `fuel` bounds the iteration count; `length + 1` always
suffices because every iteration advances the position by at least one. -/
def globalCountAux (ts : List RTok) : Nat → List Char → Nat
  | 0, _ => 0
  | fuel + 1, cs =>
    match findFirst ts cs with
    | none => 0
    | some (i, k) =>
      let adv := i + max k 1
      if adv ≤ cs.length then 1 + globalCountAux ts fuel (cs.drop adv) else 1

/-- JavaScript `(text.match(new RegExp(pat, 'g')) || []).length`. -/
def regexGlobalCount (pat text : String) : Nat :=
  globalCountAux (parseRegex pat.data) (text.data.length + 1) text.data

/-- Modelled from the spec: the pair-balance check is specified to "count
literal occurrences of the open token and of the close token via pattern
match across the whole text"; this counts non-overlapping literal
occurrences of `tok` in `text`, for comparison against the source's
`regexGlobalCount`. -/
def literalOccurrences (tok text : String) : Nat :=
  globalCountAux (tok.data.map RTok.lit) (text.data.length + 1) text.data

/-! ### Data model (`src/types.ts`) -/

structure ConversionResult where
  success : Bool
  usfm : Option String
  error : Option String
deriving DecidableEq

inductive Role where
  | system
  | user
  | assistant
deriving DecidableEq

structure OpenRouterMessage where
  role : Role
  content : String
deriving DecidableEq

/-- One element of `data.choices`; `content` is
`choices[i]?.message?.content`, `none` when the message or its content is
absent. -/
structure ORChoice where
  content : Option String
deriving DecidableEq

/-- The parsed JSON body as the source observes it: `hasError` is
`'error' in data`, `errorMessage` is `data.error?.message` (`none` when
absent), `hasChoices` is `'choices' in data`. -/
structure ORData where
  hasError : Bool
  errorMessage : Option String
  hasChoices : Bool
  choices : List ORChoice
deriving DecidableEq

/-- Outcome of `fetch` + `response.json()` as seen inside the `try` block:
either a thrown value (its `.message` when it is an `Error`, otherwise
`none`), or a resolved response (status plus parsed body). -/
inductive FetchResult where
  | exn (msg : Option String)
  | response (status : Nat) (data : ORData)
deriving DecidableEq

def failureResult (msg : String) : ConversionResult :=
  ⟨false, none, some msg⟩

def successResult (usfm : String) : ConversionResult :=
  ⟨true, some usfm, none⟩

/-! ### The embedded converter (`convertToUSFM`) -/

/-- `response.ok`: status in the inclusive range 200–299. -/
def respOk (status : Nat) : Bool :=
  decide (200 ≤ status) && decide (status ≤ 299)

/-- The `switch (response.status)` of the error branch. -/
def classifyHttpError (status : Nat) (errorMessage : String) : String :=
  match status with
  | 401 => "Invalid API key. Please check your OpenRouter API key."
  | 429 => "Rate limit exceeded. Please try again later."
  | 402 => "Insufficient credits. Please check your OpenRouter account."
  | 500 => "OpenRouter API service error. Please try again later."
  | 502 => "OpenRouter API service error. Please try again later."
  | 503 => "OpenRouter API service error. Please try again later."
  | 504 => "OpenRouter API service error. Please try again later."
  | _ => errorMessage

/-- `'error' in data && data.error?.message ? data.error.message
: 'Failed to convert text'` (an empty message string is falsy). -/
def embeddedErrorMessage (d : ORData) : String :=
  if d.hasError then
    match d.errorMessage with
    | some m => if m = "" then "Failed to convert text" else m
    | none => "Failed to convert text"
  else "Failed to convert text"

/-- The guard `!('choices' in data) || !data.choices?.[0]?.message?.content`
followed by the read `data.choices[0].message.content`: `none` exactly when
the guard throws `Invalid API response format` (no `choices` key, empty
array, absent message content, or content equal to the falsy `""`). -/
def extractContent (d : ORData) : Option String :=
  if !d.hasChoices then none
  else
    match d.choices with
    | [] => none
    | c :: _ =>
      match c.content with
      | none => none
      | some s => if s = "" then none else some s

/-- `const requiredMarkers = ['\\id', '\\h', '\\mt']`. -/
def requiredMarkers : List String :=
  ["\\id", "\\h", "\\mt"]

/-- `requiredMarkers.filter(marker => !convertedText.includes(marker))`. -/
def missingMarkers (convertedText : String) : List String :=
  requiredMarkers.filter (fun marker => !(jsIncludes convertedText marker))

/-- The `markerPairs` array: JS source strings `\f`/`\f*`, `\x`/`\x*`,
`\esb`/`\esbe`. -/
def markerPairs : List (String × String) :=
  [("\\f", "\\f*"), ("\\x", "\\x*"), ("\\esb", "\\esbe")]

/-- The `for (const [start, end] of markerPairs)` loop: the first pair whose
two global-match counts differ (its opening token), if any. -/
def firstMismatch (convertedText : String) : List (String × String) → Option String
  | [] => none
  | (s, e) :: rest =>
    if regexGlobalCount s convertedText ≠ regexGlobalCount e convertedText then some s
    else firstMismatch convertedText rest

/-- The "Comprehensive USFM validation" tail of `convertToUSFM`: required
headers first, then marker pairs, then the success return. -/
def validateUSFM (convertedText : String) : ConversionResult :=
  if (missingMarkers convertedText).length > 0 then
    failureResult ("Invalid USFM output: Missing required markers: "
      ++ String.intercalate ", " (missingMarkers convertedText))
  else
    match firstMismatch convertedText markerPairs with
    | some start => failureResult ("Invalid USFM output: Mismatched " ++ start ++ " markers")
    | none => successResult convertedText

/-- Everything after `const data = await response.json()`: status/error
classification, response-shape guard, then validation. -/
def handleData (status : Nat) (d : ORData) : ConversionResult :=
  if !respOk status || d.hasError then
    failureResult (classifyHttpError status (embeddedErrorMessage d))
  else
    match extractContent d with
    | none => failureResult "Invalid API response format"
    | some convertedText => validateUSFM convertedText

/-- The constant system instruction of the prompt. -/
def systemPrompt : String :=
  "You are a USFM (Unified Standard Format Markers) conversion expert. Your task is to convert study notes into valid USFM format.

Follow these strict guidelines:
1. Always start with proper USFM headers:
   - \\id for book identification
   - \\h for running header
   - \\mt for main title

2. Use correct markers:
   - \\v for verse numbers
   - \\p for paragraphs
   - \\s1, \\s2 for section headings
   - \\f ..\\f* for footnotes
   - \\x ..\\x* for cross references
   - \\esb ..\\esbe for study Bible notes
   - \\cat for categories
   - \\ms for major section headings
   - \\xt for cross-reference target references

3. Ensure proper nesting and closing of markers
4. Preserve all cross-references and study notes
5. Format footnotes with \\fr for reference and \\ft for text
6. Use \\p for new paragraphs, not line breaks
7. Maintain hierarchical structure of headings

Output only valid USFM markup without explanations or comments."

/-- The two-message conversation `[system, user]`; the user message wraps the
raw input verbatim. -/
def buildMessages (text : String) : List OpenRouterMessage :=
  [⟨Role.system, systemPrompt⟩, ⟨Role.user, text⟩]

/-- The embedded `convertToUSFM(text, retries = 3)`.  `svc` models one
`fetch` + `response.json()` round trip; the second component of the result
counts how many times the service was invoked.  `retries` is accepted but
never read, exactly as in the source. -/
def convertToUSFM (text : String) (retries : Nat)
    (svc : List OpenRouterMessage → FetchResult) : ConversionResult × Nat :=
  if jsTrim text = "" then
    (failureResult "Input text cannot be empty", 0)
  else
    match svc (buildMessages text) with
    | FetchResult.exn m => (failureResult (m.getD "An unknown error occurred"), 1)
    | FetchResult.response status d => (handleData status d, 1)

/-! ### Sanity checks of the RegExp model against ECMAScript behaviour -/

example : regexGlobalCount "\\f" "abc" = 0 := by decide

example : regexGlobalCount "\\f*" "abc" = 4 := by decide

example : regexGlobalCount "\\x" "x xx" = 3 := by decide

example : regexGlobalCount "\\x*" "x xx" = 4 := by decide

example : regexGlobalCount "\\esb" "\\esb a \\esbe" = 2 := by decide

example : regexGlobalCount "\\esbe" "\\esb a \\esbe" = 1 := by decide

example : literalOccurrences "\\f" "\\f a \\f*" = 2 := by decide

example : literalOccurrences "\\f*" "\\f a \\f*" = 1 := by decide

/-! ### Helper lemmas -/

lemma jsTrim_eq_empty (s : String) (h : s.data.all isJsWhitespace = true) :
    jsTrim s = "" := by
  have h' : ∀ x ∈ s.data, isJsWhitespace x := fun x hx => List.all_eq_true.mp h x hx
  unfold jsTrim
  rw [List.dropWhile_eq_nil_iff.mpr h']
  rfl

lemma convert_empty (text : String) (retries : Nat)
    (svc : List OpenRouterMessage → FetchResult) (h : jsTrim text = "") :
    convertToUSFM text retries svc = (failureResult "Input text cannot be empty", 0) := by
  unfold convertToUSFM
  rw [if_pos h]

lemma convert_nonempty_response (text : String) (retries status : Nat) (d : ORData)
    (h : ¬ jsTrim text = "") :
    convertToUSFM text retries (fun _ => FetchResult.response status d)
      = (handleData status d, 1) := by
  unfold convertToUSFM
  rw [if_neg h]

lemma convert_nonempty_exn (text : String) (retries : Nat) (m : Option String)
    (h : ¬ jsTrim text = "") :
    convertToUSFM text retries (fun _ => FetchResult.exn m)
      = (failureResult (m.getD "An unknown error occurred"), 1) := by
  unfold convertToUSFM
  rw [if_neg h]

lemma validateUSFM_shape (ct : String) :
    validateUSFM ct = successResult ct ∨ ∃ m, validateUSFM ct = failureResult m := by
  unfold validateUSFM
  split
  · exact Or.inr ⟨_, rfl⟩
  · split
    · exact Or.inr ⟨_, rfl⟩
    · exact Or.inl rfl

lemma handleData_shape (status : Nat) (d : ORData) :
    (∃ s, handleData status d = successResult s)
      ∨ ∃ m, handleData status d = failureResult m := by
  unfold handleData
  split
  · exact Or.inr ⟨_, rfl⟩
  · split
    · exact Or.inr ⟨_, rfl⟩
    · rename_i ct _
      rcases validateUSFM_shape ct with h | ⟨m, h⟩
      · exact Or.inl ⟨ct, h⟩
      · exact Or.inr ⟨m, h⟩

lemma handleData_ok_noerror (status : Nat) (d : ORData)
    (hok : respOk status = true) (herr : d.hasError = false) :
    handleData status d
      = match extractContent d with
        | none => failureResult "Invalid API response format"
        | some convertedText => validateUSFM convertedText := by
  unfold handleData
  rw [hok, herr]
  rfl

/-- The mutual-exclusion property of `ConversionResult` values: the success
variant carries `usfm` and no `error`, the failure variant carries `error`
and no `usfm`. -/
def exactlyOneVariant (r : ConversionResult) : Prop :=
  (r.success = true ∧ (∃ s, r.usfm = some s) ∧ r.error = none)
    ∨ (r.success = false ∧ r.usfm = none ∧ ∃ m, r.error = some m)

/-! ### Claims -/

/-- C3: for every input string that is empty or consists only of whitespace,
`convertToUSFM` fails with the empty-input error message and performs no
service call (the call count is zero). -/
theorem c3_empty_input_no_call (text : String) (retries : Nat)
    (svc : List OpenRouterMessage → FetchResult)
    (h : text.data.all isJsWhitespace = true) :
    convertToUSFM text retries svc = (failureResult "Input text cannot be empty", 0) :=
  convert_empty text retries svc (jsTrim_eq_empty text h)

/-- Witness for C3 at the empty input and a throwing stub service. -/
theorem c3_empty_input_no_call_witness :
    ("".data.all isJsWhitespace = true) ∧
      convertToUSFM "" 3 (fun _ => FetchResult.exn none)
        = (failureResult "Input text cannot be empty", 0) :=
  ⟨rfl, c3_empty_input_no_call "" 3 (fun _ => FetchResult.exn none) rfl⟩

/-- C4: for every input and every service behaviour, `convertToUSFM` returns
exactly one of the success or failure variants (never both populated) and,
being a total function, never propagates an exception past its boundary;
moreover a thrown `Error` is converted into a failure carrying the captured
message. -/
theorem c4_exactly_one_variant (text : String) (retries : Nat)
    (svc : List OpenRouterMessage → FetchResult) :
    exactlyOneVariant (convertToUSFM text retries svc).1 ∧
      (∀ msg, ¬ jsTrim text = "" → svc (buildMessages text) = FetchResult.exn (some msg) →
        (convertToUSFM text retries svc).1 = failureResult msg) := by
  constructor
  · unfold convertToUSFM exactlyOneVariant
    split
    · exact Or.inr ⟨rfl, rfl, _, rfl⟩
    · split
      · exact Or.inr ⟨rfl, rfl, _, rfl⟩
      · rename_i status d _
        rcases handleData_shape status d with ⟨s, h⟩ | ⟨m, h⟩
        · rw [h]
          exact Or.inl ⟨rfl, ⟨s, rfl⟩, rfl⟩
        · rw [h]
          exact Or.inr ⟨rfl, rfl, m, rfl⟩
  · intro msg hne hsvc
    unfold convertToUSFM
    rw [if_neg hne, hsvc]
    rfl

/-- Witness for C4's exception clause at a concrete throwing stub. -/
theorem c4_exactly_one_variant_witness :
    (¬ jsTrim "notes" = "") ∧
      (convertToUSFM "notes" 3 (fun _ => FetchResult.exn (some "network down"))).1
        = failureResult "network down" :=
  ⟨by decide,
    (c4_exactly_one_variant "notes" 3 (fun _ => FetchResult.exn (some "network down"))).2
      "network down" (by decide) rfl⟩

/-- C5: for every response with HTTP status 401, `convertToUSFM` fails with
the invalid-credential message, whatever the parsed response body contains. -/
theorem c5_http_401_invalid_credential (text : String) (retries : Nat) (d : ORData)
    (h : ¬ jsTrim text = "") :
    (convertToUSFM text retries (fun _ => FetchResult.response 401 d)).1
      = failureResult "Invalid API key. Please check your OpenRouter API key." := by
  rw [convert_nonempty_response text retries 401 d h]
  rfl

/-- Witness for C5 at a body that even carries its own error message. -/
theorem c5_http_401_invalid_credential_witness :
    (¬ jsTrim "notes" = "") ∧
      (convertToUSFM "notes" 3 (fun _ =>
          FetchResult.response 401 ⟨true, some "quota exceeded", true, [⟨some "junk"⟩]⟩)).1
        = failureResult "Invalid API key. Please check your OpenRouter API key." :=
  ⟨by decide,
    c5_http_401_invalid_credential "notes" 3 ⟨true, some "quota exceeded", true, [⟨some "junk"⟩]⟩
      (by decide)⟩

/-- C8: for every non-empty input the service is invoked exactly once, and
the result does not depend on the value of the accepted-but-unused
retry-count parameter. -/
theorem c8_single_call_retries_unused (text : String) (r1 r2 : Nat)
    (svc : List OpenRouterMessage → FetchResult) (h : ¬ jsTrim text = "") :
    (convertToUSFM text r1 svc).2 = 1 ∧
      convertToUSFM text r1 svc = convertToUSFM text r2 svc := by
  refine ⟨?_, rfl⟩
  unfold convertToUSFM
  rw [if_neg h]
  split <;> rfl

/-- Witness for C8 with retry counts 0 and 7. -/
theorem c8_single_call_retries_unused_witness :
    (¬ jsTrim "notes" = "") ∧
      (convertToUSFM "notes" 0 (fun _ => FetchResult.exn none)).2 = 1 ∧
      convertToUSFM "notes" 0 (fun _ => FetchResult.exn none)
        = convertToUSFM "notes" 7 (fun _ => FetchResult.exn none) :=
  ⟨by decide, c8_single_call_retries_unused "notes" 0 7 (fun _ => FetchResult.exn none) (by decide)⟩

/-- C9: `convertToUSFM` is deterministic in its input and the service's
responses: two calls with identical input against a stub service that
answers identically yield identical results. -/
theorem c9_deterministic (text : String) (retries : Nat)
    (svc1 svc2 : List OpenRouterMessage → FetchResult)
    (h : ∀ ms, svc1 ms = svc2 ms) :
    convertToUSFM text retries svc1 = convertToUSFM text retries svc2 := by
  unfold convertToUSFM
  rw [h (buildMessages text)]

/-- Witness for C9 with two syntactically distinct but extensionally equal
deterministic stubs. -/
theorem c9_deterministic_witness :
    convertToUSFM "notes" 3 (fun _ => FetchResult.response 200 ⟨false, none, true, []⟩)
      = convertToUSFM "notes" 3 (fun ms =>
          FetchResult.response (if ms = ms then 200 else 500) ⟨false, none, true, []⟩) :=
  c9_deterministic "notes" 3 _ _ (fun ms => by rw [if_pos rfl])

lemma extractContent_eq_none (d : ORData)
    (h : d.hasChoices = false ∨ d.choices = []
      ∨ ∃ c cs, d.choices = c :: cs ∧ (c.content = none ∨ c.content = some "")) :
    extractContent d = none := by
  unfold extractContent
  rcases h with hc | hc | ⟨c, cs, hc, hcon⟩
  · rw [hc]
    rfl
  · cases hb : d.hasChoices <;> simp [hc]
  · rcases hcon with hcon | hcon <;> cases hb : d.hasChoices <;> simp [hc, hcon]

lemma convert_malformed (text : String) (retries status : Nat) (d : ORData)
    (h1 : ¬ jsTrim text = "") (h2 : respOk status = true) (h3 : d.hasError = false)
    (hec : extractContent d = none) :
    (convertToUSFM text retries (fun _ => FetchResult.response status d)).1
      = failureResult "Invalid API response format" := by
  rw [convert_nonempty_response text retries status d h1]
  show handleData status d = _
  rw [handleData_ok_noerror status d h2 h3, hec]

/-- C6: for every success-status response without an error envelope whose
body lacks the expected completion-choice shape (no `choices` key, an empty
choices array, or a first choice without message content), `convertToUSFM`
fails with the malformed-response message. -/
theorem c6_malformed_response (text : String) (retries status : Nat) (d : ORData)
    (h1 : ¬ jsTrim text = "") (h2 : respOk status = true) (h3 : d.hasError = false)
    (h4 : d.hasChoices = false ∨ d.choices = []
      ∨ ∃ c cs, d.choices = c :: cs ∧ c.content = none) :
    (convertToUSFM text retries (fun _ => FetchResult.response status d)).1
      = failureResult "Invalid API response format" := by
  refine convert_malformed text retries status d h1 h2 h3 (extractContent_eq_none d ?_)
  rcases h4 with hc | hc | ⟨c, cs, hc, hcon⟩
  · exact Or.inl hc
  · exact Or.inr (Or.inl hc)
  · exact Or.inr (Or.inr ⟨c, cs, hc, Or.inl hcon⟩)

/-- Witness for C6 at a 200 response whose body has `choices: []`. -/
theorem c6_malformed_response_witness :
    (¬ jsTrim "notes" = "") ∧
      (convertToUSFM "notes" 3 (fun _ => FetchResult.response 200 ⟨false, none, true, []⟩)).1
        = failureResult "Invalid API response format" :=
  ⟨by decide,
    c6_malformed_response "notes" 3 200 ⟨false, none, true, []⟩ (by decide) rfl rfl
      (Or.inr (Or.inl rfl))⟩

/-- C7: when the extracted content lacks required header markers, the
required-header check fails first — regardless of marker-pair balance — and
the message lists exactly the missing marker names, in the fixed
`\id`, `\h`, `\mt` order. -/
theorem c7_missing_markers_listed (text : String) (retries status : Nat) (d : ORData)
    (ct : String) (h1 : ¬ jsTrim text = "") (h2 : respOk status = true)
    (h3 : d.hasError = false) (h4 : extractContent d = some ct)
    (h5 : missingMarkers ct ≠ []) :
    (convertToUSFM text retries (fun _ => FetchResult.response status d)).1
      = failureResult ("Invalid USFM output: Missing required markers: "
          ++ String.intercalate ", " (missingMarkers ct)) := by
  rw [convert_nonempty_response text retries status d h1]
  show handleData status d = _
  rw [handleData_ok_noerror status d h2 h3, h4]
  show validateUSFM ct = _
  unfold validateUSFM
  rw [if_pos (List.length_pos.mpr h5)]

/-- Witness for C7 at content lacking both `\id` and `\mt`: the message
lists exactly those two markers. -/
theorem c7_missing_markers_listed_witness :
    missingMarkers "x \\h y" = ["\\id", "\\mt"] ∧
      (convertToUSFM "notes" 3 (fun _ =>
          FetchResult.response 200 ⟨false, none, true, [⟨some "x \\h y"⟩]⟩)).1
        = failureResult "Invalid USFM output: Missing required markers: \\id, \\mt" :=
  ⟨by decide,
    (c7_missing_markers_listed "notes" 3 200 ⟨false, none, true, [⟨some "x \\h y"⟩]⟩
        "x \\h y" (by decide) rfl rfl rfl (by decide)).trans (by decide)⟩

/-- C10: a success-status response whose first choice has message content
equal to the empty string is classified exactly like absent content: the
conversion fails with the malformed-response message and is never a
successful empty conversion. -/
theorem c10_empty_content_malformed (text : String) (retries status : Nat) (d : ORData)
    (cs : List ORChoice) (h1 : ¬ jsTrim text = "") (h2 : respOk status = true)
    (h3 : d.hasError = false) (h4 : d.choices = ⟨some ""⟩ :: cs) :
    (convertToUSFM text retries (fun _ => FetchResult.response status d)).1
      = failureResult "Invalid API response format" :=
  convert_malformed text retries status d h1 h2 h3
    (extractContent_eq_none d (Or.inr (Or.inr ⟨⟨some ""⟩, cs, h4, Or.inr rfl⟩)))

/-- Witness for C10 at a 200 response whose single choice has content `""`. -/
theorem c10_empty_content_malformed_witness :
    (¬ jsTrim "notes" = "") ∧
      (convertToUSFM "notes" 3 (fun _ =>
          FetchResult.response 200 ⟨false, none, true, [⟨some ""⟩]⟩)).1
        = failureResult "Invalid API response format" :=
  ⟨by decide,
    c10_empty_content_malformed "notes" 3 200 ⟨false, none, true, [⟨some ""⟩]⟩ []
      (by decide) rfl rfl rfl⟩

/-- A completion text containing all three required headers and zero literal
occurrences of every pair token (so every pair is balanced, 0 = 0). -/
def c1Content : String := "\\id GEN \\h Genesis \\mt Title"

/-- Another such completion text, for the pair-balance claim. -/
def c2Content : String := "\\id GEN \\h Gen \\mt T"

/-- C1 (code bug): content with all three required headers and balanced
literal footnote/cross-reference/study-note pairs should convert
successfully and unchanged, but the code rejects it: `new RegExp('\\f','g')`
denotes the form-feed character (0 matches) while `new RegExp('\\f*','g')`
matches the empty string at every position (29 matches), so the pair check
reports `Mismatched \f markers` on this — and every — valid completion. -/
theorem c1_code_bug_eval :
    jsIncludes c1Content "\\id" = true ∧ jsIncludes c1Content "\\h" = true
      ∧ jsIncludes c1Content "\\mt" = true
      ∧ (∀ p ∈ markerPairs, literalOccurrences p.1 c1Content = literalOccurrences p.2 c1Content)
      ∧ (convertToUSFM "study notes" 3 (fun _ =>
            FetchResult.response 200 ⟨false, none, true, [⟨some c1Content⟩]⟩)).1
          = failureResult "Invalid USFM output: Mismatched \\f markers" := by
  decide

/-- C2 (code bug): the pair-balance check does not count literal occurrences
of the open and close tokens: on content whose literal counts are balanced
for every pair (all zero), the check still fails and cites `\f`, because the
unescaped patterns count form feeds (0) against empty-string matches (21). -/
theorem c2_code_bug_eval :
    (∀ p ∈ markerPairs, literalOccurrences p.1 c2Content = literalOccurrences p.2 c2Content)
      ∧ regexGlobalCount "\\f" c2Content = 0
      ∧ regexGlobalCount "\\f*" c2Content = 21
      ∧ firstMismatch c2Content markerPairs = some "\\f"
      ∧ validateUSFM c2Content = failureResult "Invalid USFM output: Mismatched \\f markers" := by
  decide

end USFM
